import Mathlib

/-!
# Verification of the EnvironmentalExposureTracker backend

Shallow embedding of the backend core of this repository:

* the exposure scoring engine (`calculate_exposure_scores` in
  `backend/database/supabase-schema.sql`),
* the tile cache service (`SupabaseCacheService` and the heatmap tile
  endpoint in `backend/server.js`),
* the session/reading tracking (`ExposureTrackingService` in
  `backend/server.js`),
* the history interval parsing (`parseInterval` in `backend/server.js`).

Timestamps are modelled as integer milliseconds (JavaScript `Date.now()`),
PostgreSQL `NUMERIC` values as `ℚ`, and the `NUMERIC → INTEGER` cast as
`pgRound` (round half away from zero). Each persistent table is modelled
explicitly, with its uniqueness constraint where a claim needs it.
-/

namespace EnvTracker

/-- PostgreSQL cast from `NUMERIC` to `INTEGER`: rounds half away from zero.
This models both plpgsql assignments of numeric expressions to `INTEGER`
variables and the explicit `::INTEGER` cast in the schema. -/
def pgRound (q : ℚ) : ℤ :=
  if 0 ≤ q then ⌊q + 1/2⌋ else -⌊-q + 1/2⌋

/-- Result row of `calculate_exposure_scores` (RETURNS TABLE with four
`INTEGER` columns). -/
structure ExposureScores where
  airQualityScore : ℤ
  pollenScore : ℤ
  uvScore : ℤ
  overallScore : ℤ
  deriving Repr, DecidableEq

/-- Air-quality CASE expression of `calculate_exposure_scores`
(`supabase-schema.sql` lines 307-314). All arithmetic is on integers. -/
def airQualityBand (a : ℤ) : ℤ :=
  if a ≤ 50 then 0
  else if a ≤ 100 then (a - 50) * 2
  else if a ≤ 150 then 100 + (a - 100) * 2
  else if a ≤ 200 then 200 + (a - 150) * 2
  else if a ≤ 300 then 300 + (a - 200) * 2
  else 500

/-- Pollen CASE expression of `calculate_exposure_scores`
(`supabase-schema.sql` lines 317-323), as a numeric expression; the
integer argument is promoted to `NUMERIC` for the comparisons with 2.4
etc., and the selected branch is cast to `INTEGER` on assignment. -/
def pollenBand (p : ℚ) : ℚ :=
  if p ≤ 24/10 then 0
  else if p ≤ 48/10 then (p - 24/10) * (208/10)
  else if p ≤ 97/10 then 50 + (p - 48/10) * (102/10)
  else if p ≤ 12 then 100 + (p - 97/10) * 13
  else 130

/-- UV CASE expression of `calculate_exposure_scores`
(`supabase-schema.sql` lines 326-332); `p_uv_index` is `DECIMAL`. -/
def uvBand (u : ℚ) : ℚ :=
  if u ≤ 2 then 0
  else if u ≤ 5 then (u - 2) * (333/10)
  else if u ≤ 7 then 100 + (u - 5) * 50
  else if u ≤ 10 then 200 + (u - 7) * (333/10)
  else 300

/-- `calculate_exposure_scores(p_air_quality_index INTEGER,
p_pollen_index INTEGER, p_uv_index DECIMAL)` from
`supabase-schema.sql` lines 295-339. Each CASE result is cast to the
`INTEGER` out-parameter; the overall score is
`(air*0.4 + pollen*0.3 + uv*0.3)::INTEGER`. -/
def calculate_exposure_scores (aqi pollen : ℤ) (uv : ℚ) : ExposureScores :=
  let a := airQualityBand aqi
  let p := pgRound (pollenBand (pollen : ℚ))
  let u := pgRound (uvBand uv)
  { airQualityScore := a
    pollenScore := p
    uvScore := u
    overallScore := pgRound ((a : ℚ) * (4/10) + (p : ℚ) * (3/10) + (u : ℚ) * (3/10)) }

/-- Score computation performed by `recordExposureReading` in
`backend/server.js` (lines 329-335): each missing/null raw field is
replaced by 0 (`readingData.x || 0`) before calling
`calculate_exposure_scores`. -/
def scoreReadingInputs (aqi pollen : Option ℤ) (uv : Option ℚ) : ExposureScores :=
  calculate_exposure_scores (aqi.getD 0) (pollen.getD 0) (uv.getD 0)

/-! ## Scoring engine: basic lemmas -/

theorem pgRound_eq_floor {q : ℚ} (h : 0 ≤ q) : pgRound q = ⌊q + 1/2⌋ := by
  simp [pgRound, h]

theorem pgRound_nonneg {q : ℚ} (h : 0 ≤ q) : 0 ≤ pgRound q := by
  rw [pgRound_eq_floor h]
  exact Int.le_floor.mpr (by push_cast; linarith)

theorem pgRound_le {q : ℚ} {n : ℤ} (h0 : 0 ≤ q) (h : q ≤ (n : ℚ)) :
    pgRound q ≤ n := by
  rw [pgRound_eq_floor h0]
  have : ⌊q + 1/2⌋ < n + 1 := Int.floor_lt.mpr (by push_cast; linarith)
  omega

theorem airQualityBand_nonneg (a : ℤ) : 0 ≤ airQualityBand a := by
  unfold airQualityBand; split_ifs <;> omega

theorem airQualityBand_le (a : ℤ) : airQualityBand a ≤ 500 := by
  unfold airQualityBand; split_ifs <;> omega

theorem pollenBand_nonneg (p : ℚ) : 0 ≤ pollenBand p := by
  unfold pollenBand; split_ifs <;> nlinarith

theorem pollenBand_le (p : ℚ) : pollenBand p ≤ 130 := by
  unfold pollenBand; split_ifs <;> nlinarith

theorem uvBand_nonneg (u : ℚ) : 0 ≤ uvBand u := by
  unfold uvBand; split_ifs <;> nlinarith

theorem uvBand_le (u : ℚ) : uvBand u ≤ 300 := by
  unfold uvBand; split_ifs <;> nlinarith

theorem calculate_exposure_scores_def (aqi pollen : ℤ) (uv : ℚ) :
    calculate_exposure_scores aqi pollen uv =
      ⟨airQualityBand aqi, pgRound (pollenBand (pollen : ℚ)), pgRound (uvBand uv),
        pgRound ((airQualityBand aqi : ℚ) * (4/10)
          + (pgRound (pollenBand (pollen : ℚ)) : ℚ) * (3/10)
          + (pgRound (uvBand uv) : ℚ) * (3/10))⟩ := rfl

theorem weighted_sum_nonneg (aqi pollen : ℤ) (uv : ℚ) :
    0 ≤ (airQualityBand aqi : ℚ) * (4/10)
      + (pgRound (pollenBand (pollen : ℚ)) : ℚ) * (3/10)
      + (pgRound (uvBand uv) : ℚ) * (3/10) := by
  have ha : (0 : ℚ) ≤ (airQualityBand aqi : ℚ) := by
    exact_mod_cast airQualityBand_nonneg aqi
  have hp : (0 : ℚ) ≤ (pgRound (pollenBand (pollen : ℚ)) : ℚ) := by
    exact_mod_cast pgRound_nonneg (pollenBand_nonneg (pollen : ℚ))
  have hu : (0 : ℚ) ≤ (pgRound (uvBand uv) : ℚ) := by
    exact_mod_cast pgRound_nonneg (uvBand_nonneg uv)
  nlinarith

/-- C1 counterexample: at input (300, 0, 0) the air-quality sub-score is 500
and the overall score is 200; neither lies in 0..100, so the scoring
function does not return values in 0..100 and the weighting does not cap
the overall result at 100. -/
theorem calculate_exposure_scores_no_100_cap :
    (calculate_exposure_scores 300 0 0).airQualityScore = 500 ∧
    (calculate_exposure_scores 300 0 0).overallScore = 200 ∧
    ¬ (calculate_exposure_scores 300 0 0).airQualityScore ≤ 100 ∧
    ¬ (calculate_exposure_scores 300 0 0).overallScore ≤ 100 := by
  norm_num [calculate_exposure_scores, airQualityBand, pollenBand, uvBand, pgRound]

/-- C1 (amended): the scoring function returns four integers that are
bounded, but not by 100: the air-quality sub-score lies in 0..500, the
pollen sub-score in 0..130, the UV sub-score in 0..300, and the overall
score in 0..329; no step caps the overall result at 100. -/
theorem calculate_exposure_scores_bounds (aqi pollen : ℤ) (uv : ℚ) :
    0 ≤ (calculate_exposure_scores aqi pollen uv).airQualityScore ∧
    (calculate_exposure_scores aqi pollen uv).airQualityScore ≤ 500 ∧
    0 ≤ (calculate_exposure_scores aqi pollen uv).pollenScore ∧
    (calculate_exposure_scores aqi pollen uv).pollenScore ≤ 130 ∧
    0 ≤ (calculate_exposure_scores aqi pollen uv).uvScore ∧
    (calculate_exposure_scores aqi pollen uv).uvScore ≤ 300 ∧
    0 ≤ (calculate_exposure_scores aqi pollen uv).overallScore ∧
    (calculate_exposure_scores aqi pollen uv).overallScore ≤ 329 := by
  have ha0 := airQualityBand_nonneg aqi
  have ha1 := airQualityBand_le aqi
  have hp0 := pgRound_nonneg (pollenBand_nonneg (pollen : ℚ))
  have hp1 := pgRound_le (pollenBand_nonneg (pollen : ℚ))
    (by exact_mod_cast pollenBand_le (pollen : ℚ))
  have hu0 := pgRound_nonneg (uvBand_nonneg uv)
  have hu1 := pgRound_le (uvBand_nonneg uv) (by exact_mod_cast uvBand_le uv)
  have hS := weighted_sum_nonneg aqi pollen uv
  rw [calculate_exposure_scores_def]
  refine ⟨ha0, ha1, hp0, hp1, hu0, hu1, pgRound_nonneg hS, pgRound_le hS ?_⟩
  have ha1' : (airQualityBand aqi : ℚ) ≤ 500 := by exact_mod_cast ha1
  have hp1' : (pgRound (pollenBand (pollen : ℚ)) : ℚ) ≤ 130 := by exact_mod_cast hp1
  have hu1' : (pgRound (uvBand uv) : ℚ) ≤ 300 := by exact_mod_cast hu1
  push_cast
  linarith

/-- C2: the overall score equals `round(0.4·a + 0.3·p + 0.3·u)` computed
from the three sub-scores produced by the same call (the `::INTEGER` cast
agrees with rounding here because the weighted sum is non-negative). -/
theorem overall_score_eq_round_weighted (aqi pollen : ℤ) (uv : ℚ) :
    (calculate_exposure_scores aqi pollen uv).overallScore =
      round ((4/10 : ℚ) * (calculate_exposure_scores aqi pollen uv).airQualityScore
        + (3/10) * (calculate_exposure_scores aqi pollen uv).pollenScore
        + (3/10) * (calculate_exposure_scores aqi pollen uv).uvScore) := by
  have hS := weighted_sum_nonneg aqi pollen uv
  rw [calculate_exposure_scores_def]
  show pgRound _ = _
  rw [pgRound_eq_floor hS, round_eq]
  congr 1
  ring

/-- C3: band boundaries belong to the lower segment (AQI 50 scores 0, AQI
51 scores 2, pollen 2.4 scores 0), and the concrete reading
`{air_quality_index: 120, total_pollen_index: 5, uv_index: null}` scores
air quality 140 with the null UV scored as 0, giving overall
`round(0.4·140 + 0.3·52 + 0.3·0) = 72`. -/
theorem score_boundary_cases :
    (∀ (x : ℤ) (y : ℚ), (calculate_exposure_scores 50 x y).airQualityScore = 0) ∧
    (∀ (x : ℤ) (y : ℚ), (calculate_exposure_scores 51 x y).airQualityScore = 2) ∧
    pgRound (pollenBand (24/10)) = 0 ∧
    (∀ (x : ℤ) (y : ℚ), (calculate_exposure_scores x 2 y).pollenScore = 0) ∧
    scoreReadingInputs (some 120) (some 5) none = ⟨140, 52, 0, 72⟩ ∧
    (scoreReadingInputs (some 120) (some 5) none).overallScore =
      round ((4/10 : ℚ) * 140 + (3/10) * 52 + (3/10) * 0) := by
  refine ⟨?_, ?_, ?_, ?_, ?_, ?_⟩ <;>
    first
      | (intro x y
         norm_num [calculate_exposure_scores, airQualityBand, pollenBand, uvBand, pgRound])
      | norm_num [scoreReadingInputs, calculate_exposure_scores, airQualityBand,
          pollenBand, uvBand, pgRound, round_eq]

/-! ## Tile cache service -/

/-- Composite tile identity: the `heatmap_tiles` table is
`UNIQUE(data_type, heatmap_type, zoom_level, tile_x, tile_y)`. -/
structure TileKey where
  dataType : String
  heatmapType : String
  zoomLevel : ℤ
  tileX : ℤ
  tileY : ℤ
  deriving Repr, DecidableEq

/-- A `heatmap_tiles` row (payload modelled as a byte list). -/
structure TileEntry where
  tileData : List ℕ
  contentType : String
  createdAt : ℤ
  updatedAt : ℤ
  expiresAt : ℤ
  accessCount : ℤ
  lastAccessed : ℤ
  deriving Repr, DecidableEq

/-- The `heatmap_tiles` relation, abstracted as a partial map over its
unique composite key. Timestamps are in milliseconds. -/
def CacheState : Type := TileKey → Option TileEntry

def emptyCache : CacheState := fun _ => none

/-- `CACHE_DURATIONS` (server.js lines 35-39) with the JS lookup default
`CACHE_DURATIONS[dataType] || 60` used by `storeTile`. In minutes. -/
def CACHE_DURATIONS (dataType : String) : ℤ :=
  if dataType = "airquality" then 60
  else if dataType = "pollen" then 1440
  else if dataType = "uv" then 30
  else 60

/-- `SupabaseCacheService.getCachedTile` (server.js lines 112-166):
selects the row with the given key and `expires_at > now`; on a hit it
increments `access_count` and sets `last_accessed`, and the originally
selected row is served. Returns the served row and the updated table. -/
def getCachedTile (cache : CacheState) (now : ℤ) (k : TileKey) :
    Option TileEntry × CacheState :=
  match cache k with
  | none => (none, cache)
  | some e =>
    if now < e.expiresAt then
      let updated : TileEntry :=
        { e with accessCount := e.accessCount + 1, lastAccessed := now }
      (some e, fun q => if q = k then some updated else cache q)
    else (none, cache)

/-- `SupabaseCacheService.storeTile` (server.js lines 168-200): upsert on
the composite key with
`expires_at = now + CACHE_DURATIONS[dataType]·60·1000` ms; on conflict the
payload, content type, expiry and `updated_at` are replaced while
`created_at` and `access_count` survive. -/
def storeTile (cache : CacheState) (now : ℤ) (k : TileKey)
    (data : List ℕ) (contentType : String) : CacheState :=
  let expiresAt := now + CACHE_DURATIONS k.dataType * 60 * 1000
  let entry : TileEntry :=
    match cache k with
    | none =>
      { tileData := data, contentType := contentType, createdAt := now,
        updatedAt := now, expiresAt := expiresAt, accessCount := 0,
        lastAccessed := now }
    | some e =>
      { e with
        tileData := data
        contentType := contentType
        updatedAt := now
        expiresAt := expiresAt }
  fun q => if q = k then some entry else cache q

/-- A row of the `api_usage` table (`UNIQUE(hour_key)`). -/
structure UsageRow where
  hourKey : String
  apiEndpoint : String
  dataType : String
  requestCount : ℤ
  lastRequestAt : ℤ
  deriving Repr, DecidableEq

/-- `String(x).padStart(2, '0')` for the month/day components. -/
def pad2 (n : ℕ) : String := if n < 10 then "0" ++ toString n else toString n

/-- Hour-bucket key built in `trackAPIUsage` (server.js line 205):
endpoint, data type, zero-padded date, and (unpadded) hour. -/
def hourKeyFor (dataType : String) (year month day hour : ℕ) : String :=
  "google_cloud_api_" ++ dataType ++ "_" ++ toString year ++ "-" ++ pad2 month
    ++ "-" ++ pad2 day ++ "_" ++ toString hour

/-- Supabase `.upsert(row, onConflict hour_key)` = `INSERT .. ON CONFLICT
(hour_key) DO UPDATE SET` over every supplied column: a conflicting row
is replaced by the supplied one. -/
def upsertUsage (tbl : List UsageRow) (r : UsageRow) : List UsageRow :=
  if tbl.any (fun t => t.hourKey == r.hourKey) then
    tbl.map (fun t => if t.hourKey == r.hourKey then r else t)
  else tbl ++ [r]

/-- `SupabaseCacheService.trackAPIUsage` (server.js lines 202-225):
upserts the current hour's counter row with the literal
`request_count: 1`. -/
def trackAPIUsage (tbl : List UsageRow) (dataType : String) (now : ℤ)
    (year month day hour : ℕ) : List UsageRow :=
  upsertUsage tbl
    { hourKey := hourKeyFor dataType year month day hour
      apiEndpoint := "google_cloud_api"
      dataType := dataType
      requestCount := 1
      lastRequestAt := now }

/-- Outcome of the heatmap tile endpoint (server.js lines 569-613): a HIT
serves the cached row with its expiry, a MISS serves the provider payload
(the `X-Cache-Stored` header is set to the string value true whether or
not the store succeeded), and a provider failure yields a 500 error. -/
inductive TileResponse where
  | hit (data : List ℕ) (contentType : String) (expiresAt : ℤ)
  | missStored (data : List ℕ) (contentType : String)
  | providerError
  deriving Repr, DecidableEq

/-- The `GET /api/heatmap/:dataType/:heatmapType/:zoom/:x/:y` handler
(server.js lines 569-613). `provider` is the upstream fetch result
(`none` = axios error or timeout); `storeOk`/`usageOk` say whether the
two follow-up writes succeed — the handler does not consult their
results. -/
def handleTileRequest (cache : CacheState) (usage : List UsageRow)
    (now : ℤ) (year month day hour : ℕ) (k : TileKey)
    (provider : Option (List ℕ × String)) (storeOk usageOk : Bool) :
    TileResponse × CacheState × List UsageRow :=
  match getCachedTile cache now k with
  | (some e, cache') => (.hit e.tileData e.contentType e.expiresAt, cache', usage)
  | (none, cache') =>
    match provider with
    | none => (.providerError, cache', usage)
    | some (d, ct) =>
      let cache'' := if storeOk then storeTile cache' now k d ct else cache'
      let usage' :=
        if usageOk then trackAPIUsage usage k.dataType now year month day hour
        else usage
      (.missStored d ct, cache'', usage')

/-! ## Session and reading tracking -/

/-- A row of `user_exposure_sessions` (`session_id` UNIQUE). -/
structure ExposureSession where
  sessionId : String
  userId : Option String
  deviceId : String
  startTime : ℤ
  endTime : Option ℤ
  totalDurationMinutes : ℤ
  locationLat : Option ℚ
  locationLng : Option ℚ
  deriving Repr, DecidableEq

/-- Session identifier generated by `startExposureSession` (server.js
line 271): the device id and the current `Date.now()` millisecond. -/
def sessionIdFor (deviceId : String) (nowMs : ℤ) : String :=
  "session_" ++ deviceId ++ "_" ++ toString nowMs

/-- `startExposureSession` (server.js lines 269-296): INSERT into
`user_exposure_sessions`; the UNIQUE constraint rejects an existing
`session_id`, which surfaces as an error result (`none`). -/
def startExposureSession (tbl : List ExposureSession) (deviceId : String)
    (userId : Option String) (loc : Option (ℚ × ℚ)) (nowMs : ℤ) :
    Option String × List ExposureSession :=
  let sid := sessionIdFor deviceId nowMs
  if tbl.any (fun s => s.sessionId == sid) then (none, tbl)
  else
    (some sid,
      tbl ++ [{ sessionId := sid, userId := userId, deviceId := deviceId,
                startTime := nowMs, endTime := none, totalDurationMinutes := 0,
                locationLat := loc.map Prod.fst,
                locationLng := loc.map Prod.snd }])

/-- The one possible outcome of `endExposureSession`: building the
update payload at server.js line 307 reads `this.supabase.sql`, a member
that does not exist on a supabase-js client, and invokes the resulting
`undefined` as a tagged template; the TypeError this throws is caught at
line 320 and converted into the error result
`{success: false, error: message}`. -/
inductive EndSessionError where
  | sqlTypeError
  deriving Repr, DecidableEq

/-- `endExposureSession` (server.js lines 299-324): every call throws
the TypeError described at `EndSessionError.sqlTypeError` while
evaluating the update's argument object — before the UPDATE is issued —
so every call, on every input, returns that one generic error and
leaves the session table unchanged; no session is ever mutated (or even
marked ended) by this function. -/
def endExposureSession (tbl : List ExposureSession) (now : ℤ)
    (sid : String) :
    Except EndSessionError ExposureSession × List ExposureSession :=
  (.error .sqlTypeError, tbl)

/-- A row of `exposure_readings` (score-relevant columns). -/
structure ExposureReading where
  sessionId : String
  readingTime : ℤ
  airQualityIndex : Option ℤ
  totalPollenIndex : Option ℤ
  uvIndex : Option ℚ
  airQualityExposureScore : ℤ
  pollenExposureScore : ℤ
  uvExposureScore : ℤ
  overallExposureScore : ℤ
  deriving Repr, DecidableEq

/-- `recordExposureReading` (server.js lines 327-391): computes the four
scores with null raw fields replaced by 0, then INSERTs the reading. The
insert fails when the referenced session does not exist (foreign key on
`session_id`) or the store fails (`dbOk = false`); either failure is
returned to the caller as an error result (`none`). -/
def recordExposureReading (sessions : List ExposureSession)
    (readings : List ExposureReading) (dbOk : Bool) (sid : String)
    (aqi pollen : Option ℤ) (uv : Option ℚ) (now : ℤ) :
    Option ExposureReading × List ExposureReading :=
  let sc := scoreReadingInputs aqi pollen uv
  let r : ExposureReading :=
    { sessionId := sid, readingTime := now, airQualityIndex := aqi,
      totalPollenIndex := pollen, uvIndex := uv,
      airQualityExposureScore := sc.airQualityScore,
      pollenExposureScore := sc.pollenScore,
      uvExposureScore := sc.uvScore,
      overallExposureScore := sc.overallScore }
  if dbOk && sessions.any (fun s => s.sessionId == sid) then
    (some r, readings ++ [r])
  else (none, readings)

/-- `updateDailyExposureSummary` (server.js lines 416-435), which calls
the `update_daily_exposure_summary` RPC (supabase-schema.sql lines
342-425): the RPC recomputes the device's summary for the date and
upserts one row keyed by the UNIQUE `(device_id, summary_date)` pair
(the table is modelled here by those keys; the claims settled in this
file concern only the upsert's keying and whether its failure is
surfaced). An RPC error — `dbOk = false` — is returned to the caller as
an error result, which the endpoint maps to a 500 response. -/
def updateDailyExposureSummary (summaries : List (String × String))
    (dbOk : Bool) (deviceId date : String) :
    Bool × List (String × String) :=
  if dbOk then
    if summaries.any (fun s => s = (deviceId, date)) then (true, summaries)
    else (true, summaries ++ [(deviceId, date)])
  else (false, summaries)

/-! ## Exposure-history interval parsing -/

/-- `parseInt` on a base-10 digit capture. -/
def natOfDigits (l : List Char) : ℕ :=
  l.foldl (fun a c => 10 * a + (c.toNat - 48)) 0

/-- `parseInterval` (server.js lines 496-509): the regex
`^(\d+)(min|h|d)$` maps the captured value through the unit, and any
non-matching string falls back to 15. Since the three units start with
non-digit characters, the regex match is exactly: maximal digit prefix,
remainder equal to one unit. -/
def parseInterval (s : String) : ℕ :=
  let ds := s.data.takeWhile (fun c => c.isDigit)
  let rest := s.data.dropWhile (fun c => c.isDigit)
  if ds.isEmpty then 15
  else if rest = ['m', 'i', 'n'] then natOfDigits ds
  else if rest = ['h'] then natOfDigits ds * 60
  else if rest = ['d'] then natOfDigits ds * 60 * 24
  else 15

/-- A string matched by `^(\d+)(min|h|d)$`. -/
def IsIntervalForm (s : String) : Prop :=
  ∃ ds : List Char, ds ≠ [] ∧ (∀ c ∈ ds, c.isDigit) ∧
    (s.data = ds ++ ['m', 'i', 'n'] ∨ s.data = ds ++ ['h'] ∨
      s.data = ds ++ ['d'])

/-! ## Tile cache: lemmas and claims -/

theorem getCachedTile_of_miss (cache : CacheState) (now : ℤ) (k : TileKey)
    (h : (getCachedTile cache now k).1 = none) :
    getCachedTile cache now k = (none, cache) := by
  cases hc : cache k with
  | none => simp [getCachedTile, hc]
  | some e =>
    by_cases ht : now < e.expiresAt
    · simp [getCachedTile, hc, ht] at h
    · simp [getCachedTile, hc, ht]

theorem storeTile_self (cache : CacheState) (now : ℤ) (k : TileKey)
    (d : List ℕ) (ct : String) :
    ∃ e, storeTile cache now k d ct k = some e ∧ e.tileData = d ∧
      e.contentType = ct ∧
      e.expiresAt = now + CACHE_DURATIONS k.dataType * 60 * 1000 := by
  unfold storeTile
  cases cache k <;> simp

/-- C4: on a cache miss, when the upstream provider fetch fails (axios
error or timeout), the tile endpoint returns a provider-error result and
leaves the tile cache — and the usage table — exactly as they were: no
store, no partial write. -/
theorem provider_failure_no_cache_write (cache : CacheState)
    (usage : List UsageRow) (now : ℤ) (y mo dd hr : ℕ) (k : TileKey)
    (storeOk usageOk : Bool)
    (hmiss : (getCachedTile cache now k).1 = none) :
    (handleTileRequest cache usage now y mo dd hr k none storeOk usageOk).1
      = .providerError ∧
    (handleTileRequest cache usage now y mo dd hr k none storeOk usageOk).2.1
      = cache ∧
    (handleTileRequest cache usage now y mo dd hr k none storeOk usageOk).2.2
      = usage := by
  have h2 := getCachedTile_of_miss cache now k hmiss
  simp [handleTileRequest, h2]

/-- Witness for C4 at a concrete key and empty cache. -/
theorem provider_failure_no_cache_write_witness :
    (handleTileRequest emptyCache [] 0 2026 10 11 5
        ⟨"uv", "UV_INDEX", 3, 1, 2⟩ none true true).1
      = TileResponse.providerError ∧
    (handleTileRequest emptyCache [] 0 2026 10 11 5
        ⟨"uv", "UV_INDEX", 3, 1, 2⟩ none true true).2.1
      = emptyCache :=
  ⟨(provider_failure_no_cache_write emptyCache [] 0 2026 10 11 5
      ⟨"uv", "UV_INDEX", 3, 1, 2⟩ true true rfl).1,
   (provider_failure_no_cache_write emptyCache [] 0 2026 10 11 5
      ⟨"uv", "UV_INDEX", 3, 1, 2⟩ true true rfl).2.1⟩

/-- C5: a tile stored at `t0` is given expiry
`t0 + CACHE_DURATIONS(dataType)·60·1000` milliseconds, with the duration
table exactly 60 minutes for airquality, 1440 for pollen and 30 for uv;
a lookup strictly before that instant is a HIT serving the stored
payload, and a lookup at or after it is a MISS, on which the endpoint
refetches from the provider. -/
theorem ttl_policy (cache : CacheState) (usage : List UsageRow)
    (k : TileKey) (d : List ℕ) (ct : String) (t0 t1 : ℤ)
    (pd : List ℕ) (pct : String) (y mo dd hr : ℕ) :
    CACHE_DURATIONS "airquality" = 60 ∧
    CACHE_DURATIONS "pollen" = 1440 ∧
    CACHE_DURATIONS "uv" = 30 ∧
    (∃ e, storeTile cache t0 k d ct k = some e ∧ e.tileData = d ∧
      e.expiresAt = t0 + CACHE_DURATIONS k.dataType * 60 * 1000) ∧
    (t1 < t0 + CACHE_DURATIONS k.dataType * 60 * 1000 →
      ∃ e, (getCachedTile (storeTile cache t0 k d ct) t1 k).1 = some e ∧
        e.tileData = d ∧
        e.expiresAt = t0 + CACHE_DURATIONS k.dataType * 60 * 1000) ∧
    (t0 + CACHE_DURATIONS k.dataType * 60 * 1000 ≤ t1 →
      (getCachedTile (storeTile cache t0 k d ct) t1 k).1 = none ∧
      (handleTileRequest (storeTile cache t0 k d ct) usage t1 y mo dd hr k
          (some (pd, pct)) true true).1 = .missStored pd pct) := by
  obtain ⟨e, he, hed, hct, hee⟩ := storeTile_self cache t0 k d ct
  refine ⟨rfl, rfl, rfl, ⟨e, he, hed, hee⟩, ?_, ?_⟩
  · intro hlt
    refine ⟨e, ?_, hed, hee⟩
    simp only [getCachedTile, he]
    rw [if_pos (by omega)]
  · intro hge
    have hmiss : (getCachedTile (storeTile cache t0 k d ct) t1 k).1 = none := by
      simp only [getCachedTile, he]
      rw [if_neg (by omega)]
    refine ⟨hmiss, ?_⟩
    have h2 := getCachedTile_of_miss _ t1 k hmiss
    simp [handleTileRequest, h2]

/-- Witness for C5: a uv tile stored at 0 hits at 1799999 ms and misses
at 1800000 ms (= 30 minutes). -/
theorem ttl_policy_witness :
    (∃ e, (getCachedTile
        (storeTile emptyCache 0 ⟨"uv", "UV_INDEX", 3, 1, 2⟩ [7] "image/png")
        1799999 ⟨"uv", "UV_INDEX", 3, 1, 2⟩).1 = some e ∧
      e.tileData = [7] ∧ e.expiresAt = 0 + CACHE_DURATIONS "uv" * 60 * 1000) ∧
    (getCachedTile
        (storeTile emptyCache 0 ⟨"uv", "UV_INDEX", 3, 1, 2⟩ [7] "image/png")
        1800000 ⟨"uv", "UV_INDEX", 3, 1, 2⟩).1 = none :=
  ⟨(ttl_policy emptyCache [] ⟨"uv", "UV_INDEX", 3, 1, 2⟩ [7] "image/png" 0
      1799999 [] "" 0 0 0 0).2.2.2.2.1 (by decide),
   ((ttl_policy emptyCache [] ⟨"uv", "UV_INDEX", 3, 1, 2⟩ [7] "image/png" 0
      1800000 [] "" 0 0 0 0).2.2.2.2.2 (by decide)).1⟩

/-! ## Session lifecycle claims -/

/-- C6 counterexample: `endExposureSession` fails identically on an
unknown sessionId, on an already-ended session, and even on a known
active session — one uniform TypeError-derived error (the undefined
`this.supabase.sql`), produced before the update is issued, in place of
the claimed not-found / already-ended discrimination; nothing is ever
mutated, and in particular the active session cannot even be ended, so
the claimed scenario of a second end call failing specifically with an
already-ended error never arises. -/
theorem endSession_uniform_failure :
    (endExposureSession [] 600000 "missing").1 =
      .error EndSessionError.sqlTypeError ∧
    (endExposureSession
        [⟨"session_dev_0", none, "dev", 0, some 600000, 10, none, none⟩]
        1200000 "session_dev_0").1 = .error EndSessionError.sqlTypeError ∧
    (endExposureSession
        [⟨"session_dev_1", none, "dev", 0, none, 0, none, none⟩]
        600000 "session_dev_1").1 = .error EndSessionError.sqlTypeError ∧
    (endExposureSession
        [⟨"session_dev_1", none, "dev", 0, none, 0, none, none⟩]
        600000 "session_dev_1").2 =
      [⟨"session_dev_1", none, "dev", 0, none, 0, none, none⟩] :=
  ⟨rfl, rfl, rfl, rfl⟩

/-- C6 (amended): every call to `endExposureSession` fails with the same
generic error — the TypeError thrown by the undefined
`this.supabase.sql` before the update is issued. Calls on unknown and on
already-ended sessionIds therefore do fail, but with that one
undifferentiated error rather than a not-found or an already-ended
error, and no session is ever mutated by endExposureSession (none can
even reach the ended state through it). -/
theorem endExposureSession_spec (tbl : List ExposureSession) (now : ℤ)
    (sid : String) :
    (endExposureSession tbl now sid).1 =
      .error EndSessionError.sqlTypeError ∧
    (endExposureSession tbl now sid).2 = tbl :=
  ⟨rfl, rfl⟩

/-- C9 counterexample: two concurrent `startExposureSession` calls from
the same device in the same millisecond generate the same identifier
`sessionIdFor "dev" 1700`, so the second call returns an error result
instead of a distinct sessionId. -/
theorem concurrent_start_same_ms_collides :
    (startExposureSession [] "dev" none none 1700).1 =
      some (sessionIdFor "dev" 1700) ∧
    (startExposureSession ((startExposureSession [] "dev" none none 1700).2)
        "dev" none none 1700).1 = none := by
  constructor
  · rfl
  · simp [startExposureSession]

/-- C9 (amended): the generated identifier is a deterministic function of
(deviceId, millisecond); a start succeeds exactly when that identifier is
not yet stored, stored identifiers stay pairwise distinct (the UNIQUE
constraint), and a start whose identifier already exists — e.g. a
concurrent start from the same device in the same millisecond — fails
with an error rather than returning a distinct sessionId. -/
theorem startExposureSession_unique_ids (tbl : List ExposureSession)
    (d : String) (u : Option String) (loc : Option (ℚ × ℚ)) (now : ℤ)
    (hnd : (tbl.map ExposureSession.sessionId).Nodup) :
    (∀ sid, (startExposureSession tbl d u loc now).1 = some sid →
      sid = sessionIdFor d now) ∧
    ((startExposureSession tbl d u loc now).1 = none ↔
      ∃ s ∈ tbl, s.sessionId = sessionIdFor d now) ∧
    (((startExposureSession tbl d u loc now).2.map
        ExposureSession.sessionId).Nodup) ∧
    ((∃ s ∈ tbl, s.sessionId = sessionIdFor d now) →
      startExposureSession tbl d u loc now = (none, tbl)) := by
  have hiff : (tbl.any (fun s => s.sessionId == sessionIdFor d now) = true) ↔
      ∃ s ∈ tbl, s.sessionId = sessionIdFor d now := by
    simp [List.any_eq_true]
  cases hany : tbl.any (fun s => s.sessionId == sessionIdFor d now) with
  | true =>
    have hex : ∃ s ∈ tbl, s.sessionId = sessionIdFor d now := hiff.mp hany
    refine ⟨?_, ?_, ?_, ?_⟩ <;> simp [startExposureSession, hany, hex, hnd]
  | false =>
    have hnex : ¬ ∃ s ∈ tbl, s.sessionId = sessionIdFor d now := by
      intro hex
      exact absurd (hiff.mpr hex) (by simp [hany])
    have hsid : sessionIdFor d now ∉ tbl.map ExposureSession.sessionId := by
      intro hmem
      simp only [List.mem_map] at hmem
      obtain ⟨s, hs, he⟩ := hmem
      exact hnex ⟨s, hs, he⟩
    refine ⟨?_, ?_, ?_, ?_⟩
    · intro sid h
      simp only [startExposureSession, hany, Bool.false_eq_true, if_false,
        Option.some.injEq] at h
      exact h.symm
    · simp [startExposureSession, hany, hnex]
    · simp only [startExposureSession, hany, Bool.false_eq_true, if_false,
        List.map_append]
      rw [List.nodup_append]
      refine ⟨hnd, by simp, ?_⟩
      intro x hx hx2
      simp only [List.map_cons, List.map_nil, List.mem_singleton] at hx2
      subst hx2
      exact hsid hx
    · intro hex
      exact absurd hex hnex

/-- Witness for C9: a fresh table accepts a start and keeps ids unique. -/
theorem startExposureSession_unique_ids_witness :
    ((startExposureSession [] "dev" none none 42).2.map
      ExposureSession.sessionId).Nodup :=
  (startExposureSession_unique_ids [] "dev" none none 42 (by simp)).2.2.1

/-! ## Usage counter claims -/

theorem hourKey_of_replace (r t : UsageRow) :
    (if t.hourKey == r.hourKey then r else t).hourKey = t.hourKey := by
  split
  · rename_i h
    exact (beq_iff_eq.mp h).symm
  · rfl

theorem upsertUsage_nodup (tbl : List UsageRow) (r : UsageRow)
    (h : (tbl.map UsageRow.hourKey).Nodup) :
    ((upsertUsage tbl r).map UsageRow.hourKey).Nodup := by
  unfold upsertUsage
  split
  · have heq : (tbl.map (fun t => if t.hourKey == r.hourKey then r else t)).map
        UsageRow.hourKey = tbl.map UsageRow.hourKey := by
      rw [List.map_map]
      exact List.map_congr_left fun t _ => hourKey_of_replace r t
    rw [heq]
    exact h
  · rename_i hany
    rw [List.map_append, List.nodup_append]
    refine ⟨h, by simp, ?_⟩
    intro x hx hx2
    simp only [List.map_cons, List.map_nil, List.mem_singleton] at hx2
    subst hx2
    simp only [List.mem_map] at hx
    obtain ⟨t, ht, hteq⟩ := hx
    exact hany (List.any_eq_true.mpr ⟨t, ht, by simp [hteq]⟩)

theorem find?_map_replace (r : UsageRow) :
    ∀ tbl : List UsageRow,
      tbl.any (fun t => t.hourKey == r.hourKey) = true →
      (tbl.map (fun t => if t.hourKey == r.hourKey then r else t)).find?
        (fun t => t.hourKey == r.hourKey) = some r := by
  intro tbl
  induction tbl with
  | nil => intro h; simp at h
  | cons a tl ih =>
    intro hany
    by_cases hk : (a.hourKey == r.hourKey) = true
    · rw [List.map_cons, if_pos hk]
      exact List.find?_cons_of_pos _ (by simp)
    · have htl : tl.any (fun t => t.hourKey == r.hourKey) = true := by
        simpa [List.any_cons, hk] using hany
      rw [List.map_cons, if_neg hk, List.find?_cons_of_neg _ (by simpa using hk)]
      exact ih htl

theorem find?_append_singleton (p : UsageRow → Bool) (r : UsageRow)
    (hp : p r = true) :
    ∀ tbl : List UsageRow, (∀ t ∈ tbl, ¬ p t = true) →
      (tbl ++ [r]).find? p = some r := by
  intro tbl
  induction tbl with
  | nil => intro _; simp [List.find?_cons, hp]
  | cons a tl ih =>
    intro h
    have ha : ¬ p a = true := h a (by simp)
    rw [List.cons_append, List.find?_cons_of_neg _ (by simpa using ha)]
    exact ih fun t ht => h t (by simp [ht])

/-- C7 counterexample: two `trackAPIUsage` calls in the same hour bucket
leave the counter row with `request_count = 1`, not 2 — the upsert writes
the literal 1 and never increments. -/
theorem trackAPIUsage_overwrites_count :
    (trackAPIUsage (trackAPIUsage [] "uv" 1000 2026 10 11 5)
        "uv" 2000 2026 10 11 5) =
      [⟨hourKeyFor "uv" 2026 10 11 5, "google_cloud_api", "uv", 1, 2000⟩] ∧
    ((trackAPIUsage (trackAPIUsage [] "uv" 1000 2026 10 11 5)
        "uv" 2000 2026 10 11 5).map UsageRow.requestCount) = [1] ∧
    (1 : ℤ) ≠ 2 := by
  refine ⟨?_, ?_, by decide⟩ <;> simp [trackAPIUsage, upsertUsage]

/-- C7 (amended): `trackAPIUsage` upserts on the hour-bucket key, so the
table keeps at most one row per (endpoint, dataType, hour) bucket; but
each call sets the row's `request_count` to the literal 1 rather than
incrementing it — after any number of calls in one bucket the count is
1, not the number of calls. -/
theorem trackAPIUsage_upsert_spec (tbl : List UsageRow) (dt : String)
    (now : ℤ) (y mo dd hr : ℕ)
    (hnd : (tbl.map UsageRow.hourKey).Nodup) :
    (((trackAPIUsage tbl dt now y mo dd hr).map UsageRow.hourKey).Nodup) ∧
    ((trackAPIUsage tbl dt now y mo dd hr).find?
        (fun t => t.hourKey == hourKeyFor dt y mo dd hr) =
      some ⟨hourKeyFor dt y mo dd hr, "google_cloud_api", dt, 1, now⟩) := by
  refine ⟨upsertUsage_nodup tbl _ hnd, ?_⟩
  unfold trackAPIUsage upsertUsage
  split
  · rename_i hany
    exact find?_map_replace _ tbl hany
  · rename_i hany
    refine find?_append_singleton _ _ (by simp) tbl ?_
    intro t ht hbt
    exact hany (List.any_eq_true.mpr ⟨t, ht, hbt⟩)

/-- Witness for C7: one call on an empty table yields the single counter
row for the bucket, with count 1. -/
theorem trackAPIUsage_upsert_spec_witness :
    (trackAPIUsage [] "airquality" 77 2026 10 11 5).find?
        (fun t => t.hourKey == hourKeyFor "airquality" 2026 10 11 5) =
      some ⟨hourKeyFor "airquality" 2026 10 11 5, "google_cloud_api",
        "airquality", 1, 77⟩ :=
  (trackAPIUsage_upsert_spec [] "airquality" 77 2026 10 11 5 (by simp)).2

/-! ## Persistence-failure surfacing (C8) -/

/-- C8 counterexample: with a failing tile store and usage upsert, the
tile endpoint still answers `missStored` (the success MISS response with
`X-Cache-Stored: true`) — nothing was written, yet no error result is
returned to the caller. -/
theorem store_failure_not_surfaced :
    (handleTileRequest emptyCache [] 0 2026 10 11 5
        ⟨"airquality", "US_AQI", 10, 509, 338⟩
        (some ([1], "image/png")) false false).1 =
      TileResponse.missStored [1] "image/png" ∧
    (handleTileRequest emptyCache [] 0 2026 10 11 5
        ⟨"airquality", "US_AQI", 10, 509, 338⟩
        (some ([1], "image/png")) false false).2.1
        ⟨"airquality", "US_AQI", 10, 509, 338⟩ = none ∧
    (handleTileRequest emptyCache [] 0 2026 10 11 5
        ⟨"airquality", "US_AQI", 10, 509, 338⟩
        (some ([1], "image/png")) false false).2.2 = [] :=
  ⟨rfl, rfl, rfl⟩

/-- C8 (amended): a persistence failure on the reading insert or on the
daily-summary upsert is surfaced to the caller as an error result, and
`endExposureSession`'s failure — which occurs before its session update
is ever issued, so a store failure cannot even arise on that update — is
likewise surfaced; but a failure of the tile-store upsert or of the
usage-counter upsert is logged and swallowed: the tile endpoint's
response is the same success MISS whether or not those two writes
succeed. -/
theorem persistence_error_surfacing (cache : CacheState)
    (usage : List UsageRow) (now : ℤ) (y mo dd hr : ℕ) (k : TileKey)
    (pd : List ℕ) (pct : String) (storeOk usageOk : Bool)
    (sessions : List ExposureSession) (readings : List ExposureReading)
    (sid : String) (aqi pollen : Option ℤ) (uv : Option ℚ) (t : ℤ)
    (summaries : List (String × String)) (dev day : String)
    (hmiss : (getCachedTile cache now k).1 = none) :
    (handleTileRequest cache usage now y mo dd hr k (some (pd, pct))
        storeOk usageOk).1 = .missStored pd pct ∧
    (recordExposureReading sessions readings false sid aqi pollen uv t).1
      = none ∧
    (recordExposureReading sessions readings false sid aqi pollen uv t).2
      = readings ∧
    (updateDailyExposureSummary summaries false dev day).1 = false ∧
    (updateDailyExposureSummary summaries false dev day).2 = summaries ∧
    (endExposureSession sessions t sid).1 =
      .error EndSessionError.sqlTypeError := by
  have h2 := getCachedTile_of_miss cache now k hmiss
  refine ⟨?_, ?_, ?_, ?_, ?_, ?_⟩
  · simp [handleTileRequest, h2]
  · simp [recordExposureReading]
  · simp [recordExposureReading]
  · simp [updateDailyExposureSummary]
  · simp [updateDailyExposureSummary]
  · rfl

/-- Witness for C8 at a concrete key and empty cache. -/
theorem persistence_error_surfacing_witness :
    (handleTileRequest emptyCache [] 3 2026 10 11 5
        ⟨"pollen", "TREE_UPI", 2, 1, 1⟩
        (some ([9], "image/png")) true false).1 =
      TileResponse.missStored [9] "image/png" ∧
    (updateDailyExposureSummary [] false "dev" "2026-10-11").1 = false :=
  ⟨(persistence_error_surfacing emptyCache [] 3 2026 10 11 5
      ⟨"pollen", "TREE_UPI", 2, 1, 1⟩ [9] "image/png" true false
      [] [] "s" none none none 0 [] "dev" "2026-10-11" rfl).1,
   (persistence_error_surfacing emptyCache [] 3 2026 10 11 5
      ⟨"pollen", "TREE_UPI", 2, 1, 1⟩ [9] "image/png" true false
      [] [] "s" none none none 0 [] "dev" "2026-10-11" rfl).2.2.2.1⟩

/-! ## Interval parsing claims (C10) -/

theorem takeWhile_append_unit (p : Char → Bool) (ds : List Char) (c : Char)
    (tl : List Char) (h1 : ∀ x ∈ ds, p x = true) (h2 : p c = false) :
    (ds ++ c :: tl).takeWhile p = ds ∧ (ds ++ c :: tl).dropWhile p = c :: tl := by
  induction ds with
  | nil => simp [List.takeWhile_cons, List.dropWhile_cons, h2]
  | cons a t ih =>
    have hpa : p a = true := h1 a (by simp)
    have iht := ih fun x hx => h1 x (by simp [hx])
    simp [List.takeWhile_cons, List.dropWhile_cons, hpa, iht.1, iht.2]

/-- C10 counterexample: the string 0min matches the interval regex with
numeric part 0, so `parseInterval` returns 0 — the parsed grouping
interval is not always positive. -/
theorem parseInterval_zero_not_positive :
    parseInterval "0min" = 0 ∧ ¬ 0 < parseInterval "0min" := by
  decide

theorem parseInterval_form_of_ne (s : String) (h : parseInterval s ≠ 15) :
    IsIntervalForm s := by
  simp only [parseInterval] at h
  by_cases he : (s.data.takeWhile (fun c => c.isDigit)).isEmpty = true
  · rw [if_pos he] at h
    exact absurd rfl h
  · rw [if_neg he] at h
    have hne : s.data.takeWhile (fun c => c.isDigit) ≠ [] := by
      simpa [List.isEmpty_iff] using he
    have hdig : ∀ c ∈ s.data.takeWhile (fun c => c.isDigit), c.isDigit = true :=
      fun c hc => List.mem_takeWhile_imp hc
    have hsplit : s.data =
        s.data.takeWhile (fun c => c.isDigit) ++
          s.data.dropWhile (fun c => c.isDigit) :=
      (List.takeWhile_append_dropWhile _ _).symm
    by_cases h1 : s.data.dropWhile (fun c => c.isDigit) = ['m', 'i', 'n']
    · exact ⟨_, hne, hdig, Or.inl (by rw [h1] at hsplit; exact hsplit)⟩
    · rw [if_neg h1] at h
      by_cases h2 : s.data.dropWhile (fun c => c.isDigit) = ['h']
      · exact ⟨_, hne, hdig, Or.inr (Or.inl (by rw [h2] at hsplit; exact hsplit))⟩
      · rw [if_neg h2] at h
        by_cases h3 : s.data.dropWhile (fun c => c.isDigit) = ['d']
        · exact ⟨_, hne, hdig, Or.inr (Or.inr (by rw [h3] at hsplit; exact hsplit))⟩
        · rw [if_neg h3] at h
          exact absurd rfl h

/-- C10 (amended): the parser maps a digit string followed by min, h or d
to its value in minutes, ×60 or ×1440 respectively, and every string not
of that form yields the 15-minute default; the result is therefore
positive except when the matched numeric part is itself 0 (as in 0min),
which yields a zero interval. -/
theorem parseInterval_spec :
    (∀ ds : List Char, ds ≠ [] → (∀ c ∈ ds, c.isDigit = true) →
      parseInterval ⟨ds ++ ['m', 'i', 'n']⟩ = natOfDigits ds ∧
      parseInterval ⟨ds ++ ['h']⟩ = natOfDigits ds * 60 ∧
      parseInterval ⟨ds ++ ['d']⟩ = natOfDigits ds * 1440) ∧
    (∀ s : String, ¬ IsIntervalForm s → parseInterval s = 15) ∧
    (∀ s : String, parseInterval s = 0 → IsIntervalForm s) := by
  refine ⟨?_, ?_, ?_⟩
  · intro ds hne hdig
    have hemp : ds.isEmpty = false := by
      cases ds with
      | nil => exact absurd rfl hne
      | cons a t => rfl
    refine ⟨?_, ?_, ?_⟩
    · obtain ⟨ht, hd⟩ :=
        takeWhile_append_unit (fun c => c.isDigit) ds 'm' ['i', 'n'] hdig (by decide)
      simp only [parseInterval]
      rw [ht, hd, hemp]
      simp
    · obtain ⟨ht, hd⟩ :=
        takeWhile_append_unit (fun c => c.isDigit) ds 'h' [] hdig (by decide)
      simp only [parseInterval]
      rw [ht, hd, hemp]
      simp
    · obtain ⟨ht, hd⟩ :=
        takeWhile_append_unit (fun c => c.isDigit) ds 'd' [] hdig (by decide)
      simp only [parseInterval]
      rw [ht, hd, hemp]
      rw [if_neg (by decide), if_neg (by decide), if_neg (by decide), if_pos rfl]
      omega
  · intro s hnf
    by_contra h15
    exact hnf (parseInterval_form_of_ne s h15)
  · intro s h0
    exact parseInterval_form_of_ne s (by omega)

/-- Witness for C10: 3min parses to 3 minutes and 2h to 120 minutes. -/
theorem parseInterval_spec_witness :
    parseInterval ⟨['3'] ++ ['m', 'i', 'n']⟩ = 3 ∧
    parseInterval ⟨['2'] ++ ['h']⟩ = 120 := by
  have h3 := (parseInterval_spec.1 ['3'] (by simp) (by decide))
  have h2 := (parseInterval_spec.1 ['2'] (by simp) (by decide))
  exact ⟨by rw [h3.1]; decide, by rw [h2.2.1]; decide⟩

end EnvTracker
